import Mathlib

/-!
Verification development for the markitdown-vision-service repository.

The Python sources under src/service/app are shallowly embedded: pure
functions become Lean functions on String / List Char / Int; Python
datetimes are modelled as integers (microseconds since the epoch, UTC);
fallible code returns Except or Option.  External library calls
(datetime.isoformat, json.dumps, the PDF extractor, the vision client,
the HTTP client) are modelled as explicit ports or tagged constructors,
as documented at each definition.
-/

namespace MVS

/-! ## Python string primitives

Python strings are sequences of code points; we model them as Lean
strings and work on their character lists.  The helpers below model the
exact Python operations used by the sources. -/

/-- Model of the Python slice s[:n] for n greater or equal 0. -/
def pyTake (n : Nat) (s : String) : String :=
  String.mk (s.data.take n)

/-- Model of the Python slice s[:k] for an arbitrary integer k:
a negative k drops the last (-k) characters. -/
def pySliceTo (s : String) (k : Int) : String :=
  if 0 ≤ k then String.mk (s.data.take k.toNat)
  else String.mk (s.data.take (s.data.length - (-k).toNat))

/-- The six ASCII whitespace characters recognised by Python str.strip. -/
def isPySpace (c : Char) : Bool :=
  c = ' ' || c = '\t' || c = '\n' || c = '\r' || c = '\x0b' || c = '\x0c'

/-- Model of Python str.strip() (restricted to ASCII whitespace). -/
def pyStrip (s : String) : String :=
  String.mk (((s.data.dropWhile isPySpace).reverse.dropWhile isPySpace).reverse)

/-- Split a character list at every occurrence of the separator,
keeping empty pieces: the semantics of Python str.split(sep).
Returns the first piece and the remaining pieces (the result of a
split is always non-empty). -/
def charSplit (sep : Char) : List Char → List Char × List (List Char)
  | [] => ([], [])
  | c :: cs =>
    let r := charSplit sep cs
    if c = sep then ([], r.1 :: r.2) else (c :: r.1, r.2)

/-- The pieces of a split, as one list. -/
def charSplitList (sep : Char) (cs : List Char) : List (List Char) :=
  (charSplit sep cs).1 :: (charSplit sep cs).2

/-- Join character lists with a separator: Python sep.join. -/
def charJoin (sep : Char) : List (List Char) → List Char
  | [] => []
  | [l] => l
  | l :: ls => l ++ sep :: charJoin sep ls

/-- Model of Python markdown_content.split(chr 10). -/
def pySplitNl (s : String) : List String :=
  (charSplitList '\n' s.data).map String.mk

/-- Model of Python newline.join(lines). -/
def pyJoinNl (ls : List String) : String :=
  String.mk (charJoin '\n' (ls.map String.data))

theorem charJoin_charSplitList (sep : Char) (cs : List Char) :
    charJoin sep (charSplitList sep cs) = cs := by
  induction cs with
  | nil => rfl
  | cons c cs ih =>
    unfold charSplitList at ih ⊢
    simp only [charSplit]
    rcases h : charSplit sep cs with ⟨p, ps⟩
    rw [h] at ih
    by_cases hc : c = sep
    · subst hc
      simpa [charJoin] using ih
    · simp only [if_neg hc]
      cases ps with
      | nil => simpa [charJoin] using ih
      | cons q qs => simpa [charJoin] using ih

theorem pyJoinNl_pySplitNl (s : String) : pyJoinNl (pySplitNl s) = s := by
  unfold pyJoinNl pySplitNl
  rw [List.map_map]
  have h : (String.data ∘ String.mk) = id := by
    funext l; rfl
  rw [h, List.map_id, charJoin_charSplitList]

/-! ## Page locators (src/service/app/converters/pdf_extractor.py) -/

/-- The page-break test of the source: a line whose stripped content is
one of the three horizontal rules, or which contains a form feed. -/
def isPageBreakLine (line : String) : Bool :=
  pyStrip line = "---" || pyStrip line = "***" || pyStrip line = "___"
    || line.data.contains '\x0c'

/-- The page locator comment inserted into the Markdown. -/
def pageLocator (k n : Nat) : String :=
  "<!-- Page " ++ toString k ++ " / " ++ toString n ++ " -->"

/-- Embedding of _insert_page_locators: split into lines, emit the
initial locator, then walk the lines appending a locator with an
incremented page counter after every page-break line. -/
def insert_page_locators (markdown_content : String) (total_pages : Nat) : String :=
  let lines := pySplitNl markdown_content
  let step := fun (acc : List String × Nat) (line : String) =>
    let rl := acc.1 ++ [line]
    if isPageBreakLine line then
      (rl ++ [pageLocator (acc.2 + 1) total_pages], acc.2 + 1)
    else (rl, acc.2)
  let res := lines.foldl step ([pageLocator 1 total_pages], 1)
  pyJoinNl res.1

/-- Transcription of the specification sentence for the locator pass:
the original lines in order, with a locator carrying the next page
number inserted immediately after each page-break line. -/
def pageLocatorRewrite (n : Nat) : List String → Nat → List String
  | [], _ => []
  | l :: ls, k =>
    if isPageBreakLine l then l :: pageLocator k n :: pageLocatorRewrite n ls (k + 1)
    else l :: pageLocatorRewrite n ls k

theorem insert_page_locators_foldl (n : Nat) (ls : List String)
    (acc : List String) (k : Nat) :
    (ls.foldl
      (fun (acc : List String × Nat) (line : String) =>
        let rl := acc.1 ++ [line]
        if isPageBreakLine line then
          (rl ++ [pageLocator (acc.2 + 1) n], acc.2 + 1)
        else (rl, acc.2)) (acc, k)).1 = acc ++ pageLocatorRewrite n ls (k + 1) := by
  induction ls generalizing acc k with
  | nil => simp [pageLocatorRewrite]
  | cons l ls ih =>
    simp only [List.foldl_cons, pageLocatorRewrite]
    by_cases h : isPageBreakLine l
    · simp only [h, if_true, ih]
      simp
    · simp only [h, if_false, ih, Bool.false_eq_true]
      simp

theorem pageLocatorRewrite_no_break (n : Nat) (ls : List String) (k : Nat)
    (h : ∀ l ∈ ls, ¬ isPageBreakLine l) :
    pageLocatorRewrite n ls k = ls := by
  induction ls generalizing k with
  | nil => rfl
  | cons l ls ih =>
    have hl : ¬ isPageBreakLine l := h l (by simp)
    simp only [pageLocatorRewrite, hl, if_neg]
    rw [ih k (fun x hx => h x (by simp [hx]))]
    simp [hl]

theorem pyJoinNl_cons_cons (a l : String) (ls : List String) :
    pyJoinNl (a :: l :: ls) = a ++ "\n" ++ pyJoinNl (l :: ls) := by
  apply String.ext
  simp [pyJoinNl, charJoin, String.data_append]

/-- C9: the page-locator pass emits the original lines in order,
prefixed by the locator for page 1, and inserts a locator with the page
counter incremented by one immediately after each line whose trimmed
content is a horizontal rule or which contains a form feed; input with
no page-break lines yields exactly the initial locator followed by the
unchanged input. -/
theorem c9_page_locator_pass (md : String) (n : Nat) :
    insert_page_locators md n
        = pyJoinNl (pageLocator 1 n :: pageLocatorRewrite n (pySplitNl md) 2)
      ∧ ((∀ l ∈ pySplitNl md, ¬ isPageBreakLine l) →
          insert_page_locators md n = pageLocator 1 n ++ "\n" ++ md) := by
  have hmain : insert_page_locators md n
      = pyJoinNl (pageLocator 1 n :: pageLocatorRewrite n (pySplitNl md) 2) := by
    show pyJoinNl (((pySplitNl md).foldl _ ([pageLocator 1 n], 1)).1) = _
    rw [insert_page_locators_foldl n (pySplitNl md) [pageLocator 1 n] 1]
    simp
  refine ⟨hmain, fun h => ?_⟩
  rw [hmain, pageLocatorRewrite_no_break n _ _ h]
  have : ∃ l ls, pySplitNl md = l :: ls := by
    unfold pySplitNl charSplitList
    exact ⟨_, _, rfl⟩
  obtain ⟨l, ls, hls⟩ := this
  rw [hls, pyJoinNl_cons_cons]
  rw [← hls, pyJoinNl_pySplitNl]

/-- Witness for C9 at a concrete input: two lines separated by a
horizontal rule, two pages. -/
theorem c9_page_locator_pass_witness :
    insert_page_locators "alpha\n---\nbeta" 2
      = "<!-- Page 1 / 2 -->\nalpha\n---\n<!-- Page 2 / 2 -->\nbeta" :=
  ((c9_page_locator_pass "alpha\n---\nbeta" 2).1).trans (by decide)

/-! ## Data model (src/service/app/models/task.py, src/service/app/config.py)

Python datetimes are modelled as integers: microseconds since the epoch,
in UTC (all datetimes in the service are timezone.utc instants).
A Python Optional field becomes an Option. -/

/-- Microseconds since the epoch, UTC. -/
abbrev PyDatetime := Int

/-- timedelta(hours := h) in microseconds. -/
def tdHours (h : Int) : Int := h * 3600 * 1000000

/-- The TaskStatus enumeration of models/task.py: exactly five members. -/
inductive TaskStatus
  | queued
  | running
  | completed
  | failed
  | expired
  deriving DecidableEq, Repr

/-- The string value of each TaskStatus member. -/
def TaskStatus.value : TaskStatus → String
  | .queued => "queued"
  | .running => "running"
  | .completed => "completed"
  | .failed => "failed"
  | .expired => "expired"

/-- The TaskStatus(v) enum constructor: the member whose value is v,
raising (none) for any other string. -/
def TaskStatus.ofValue : String → Option TaskStatus
  | "queued" => some .queued
  | "running" => some .running
  | "completed" => some .completed
  | "failed" => some .failed
  | "expired" => some .expired
  | _ => none

/-- Python attribute lookup TaskStatus.NAME on the enum class: only the
five declared member names resolve; any other name (in particular
CANCELLED, referenced by database.cancel_task) raises AttributeError. -/
def TaskStatus.member : String → Option TaskStatus
  | "QUEUED" => some .queued
  | "RUNNING" => some .running
  | "COMPLETED" => some .completed
  | "FAILED" => some .failed
  | "EXPIRED" => some .expired
  | _ => none

/-- The Settings record of config.py, with its declared fields and
defaults.  Retry counts are naturals (range over a negative bound is
empty in Python, matching Nat semantics); delays are rationals. -/
structure Settings where
  data_dir : String := "/data"
  max_upload_size : Nat := 500 * 1024 * 1024
  db_path : String := "/data/task_db.sqlite"
  OPENAI_API_KEY : String := ""
  max_concurrent_tasks : Nat := 2
  max_concurrent_descriptions : Nat := 5
  description_max_retries : Nat := 3
  description_retry_delay : ℚ := 1
  webhook_timeout : ℚ := 10
  webhook_max_retries : Nat := 3
  webhook_retry_delay : ℚ := 5
  cleanup_interval_minutes : Nat := 15
  retention_hours : Int := 24
  host : String := "0.0.0.0"
  port : Nat := 8000
  deriving DecidableEq, Repr

/-- The Task dataclass of models/task.py.  created_at is Optional in
the model because to_dict and from_row both guard on its truthiness. -/
structure Task where
  task_id : String
  status : TaskStatus
  original_filename : String
  content_type : Option String
  size_bytes : Int
  describe_images : Bool
  webhook_url : Option String
  created_at : Option PyDatetime
  started_at : Option PyDatetime := none
  finished_at : Option PyDatetime := none
  expires_at : Option PyDatetime := none
  error_code : Option String := none
  error_message : Option String := none
  output_files : List String := []
  webhook_last_status : Option Int := none
  webhook_last_attempt_at : Option PyDatetime := none
  webhook_attempt_count : Int := 0
  deriving DecidableEq, Repr

/-- Task.__post_init__: when expires_at is None and created_at is
truthy, set expires_at to created_at plus a hard-coded 24-hour
timedelta.  The dataclass runs this after every construction. -/
def Task.postInit (t : Task) : Task :=
  if t.expires_at = none ∧ t.created_at ≠ none then
    { t with expires_at := t.created_at.map (· + tdHours 24) }
  else t

/-- The task record built by create_conversion_task after a successful
upload: status queued, timestamps and telemetry at their defaults, and
expires_at filled in by __post_init__.  The Settings argument is the
configuration in scope at admission; as in the source, none of its
fields reach the Task constructor. -/
def admittedTask (settings : Settings) (task_id : String)
    (safe_filename : String) (content_type : Option String)
    (size_bytes : Int) (describe_images : Bool)
    (webhook_url : Option String) (now : PyDatetime) : Task :=
  let _ := settings
  Task.postInit
    { task_id := task_id
      status := .queued
      original_filename := safe_filename
      content_type := content_type
      size_bytes := size_bytes
      describe_images := describe_images
      webhook_url := webhook_url
      created_at := some now }

/-- A value held in one column of a task row (the dict produced by
Task.to_dict and consumed by Task.from_row).  External encoders are
modelled as tagged constructors: dt d stands for the injective,
non-empty string produced by datetime.isoformat on the instant d, whose
parse by datetime.fromisoformat is d again; jsonList l stands for the
non-empty string produced by json.dumps on a list of strings, whose
parse by json.loads is l again.  Both inversions are documented
contracts of the Python standard library, external to this repository. -/
inductive Cell
  | null
  | int (i : Int)
  | text (s : String)
  | dt (d : PyDatetime)
  | jsonList (l : List String)
  deriving DecidableEq, Repr

/-- Python truthiness of a cell value: None, 0 and the empty string are
falsy; isoformat strings and json.dumps outputs are never empty. -/
def Cell.truthy : Cell → Bool
  | .null => false
  | .int i => i != 0
  | .text s => s != ""
  | .dt _ => true
  | .jsonList _ => true

/-- A task row: the dict written by Task.to_dict, one cell per column
of the tasks table. -/
structure Row where
  task_id : Cell
  status : Cell
  original_filename : Cell
  content_type : Cell
  size_bytes : Cell
  describe_images : Cell
  webhook_url : Cell
  created_at : Cell
  started_at : Cell
  finished_at : Cell
  expires_at : Cell
  error_code : Cell
  error_message : Cell
  output_files : Cell
  webhook_last_status : Cell
  webhook_last_attempt_at : Cell
  webhook_attempt_count : Cell
  deriving DecidableEq, Repr

/-- A nullable text field, passed through unchanged by to_dict. -/
def optText : Option String → Cell
  | none => .null
  | some s => .text s

/-- x.isoformat() if x else None (datetimes are always truthy). -/
def optDt : Option PyDatetime → Cell
  | none => .null
  | some d => .dt d

/-- A nullable integer field, passed through unchanged by to_dict. -/
def optInt : Option Int → Cell
  | none => .null
  | some i => .int i

/-- Task.to_dict: the dictionary representation stored in the
database.  Status becomes its string value, describe_images the integer
int(bool), datetimes their isoformat strings, output_files its
json.dumps text. -/
def Task.to_dict (t : Task) : Row where
  task_id := .text t.task_id
  status := .text t.status.value
  original_filename := .text t.original_filename
  content_type := optText t.content_type
  size_bytes := .int t.size_bytes
  describe_images := .int (if t.describe_images then 1 else 0)
  webhook_url := optText t.webhook_url
  created_at := optDt t.created_at
  started_at := optDt t.started_at
  finished_at := optDt t.finished_at
  expires_at := optDt t.expires_at
  error_code := optText t.error_code
  error_message := optText t.error_message
  output_files := .jsonList t.output_files
  webhook_last_status := optInt t.webhook_last_status
  webhook_last_attempt_at := optDt t.webhook_last_attempt_at
  webhook_attempt_count := .int t.webhook_attempt_count

/-- A required text column (raises, i.e. none, on a non-text value). -/
def Cell.asText : Cell → Option String
  | .text s => some s
  | _ => none

/-- Direct assignment of a nullable text column. -/
def Cell.asOptText : Cell → Option (Option String)
  | .null => some none
  | .text s => some (some s)
  | _ => none

/-- datetime.fromisoformat on a cell (raises on a non-isoformat value). -/
def Cell.parseDt : Cell → Option PyDatetime
  | .dt d => some d
  | _ => none

/-- fromisoformat(x) if x else None. -/
def Cell.asOptDtGuarded (c : Cell) : Option (Option PyDatetime) :=
  if c.truthy then c.parseDt.map some else some none

/-- A required integer column. -/
def Cell.asInt : Cell → Option Int
  | .int i => some i
  | _ => none

/-- Direct assignment of a nullable integer column. -/
def Cell.asOptInt : Cell → Option (Option Int)
  | .null => some none
  | .int i => some (some i)
  | _ => none

/-- json.loads(x) if x else []. -/
def Cell.asListGuarded : Cell → Option (List String)
  | .null => some []
  | .jsonList l => some l
  | .int i => if i != 0 then none else some []
  | .text s => if s != "" then none else some []
  | .dt _ => none

/-- x or 0, for a nullable integer column (0 is falsy, so the result
of x or 0 is x itself when x is an integer). -/
def Cell.orZeroInt : Cell → Option Int
  | .null => some 0
  | .int i => some i
  | _ => none

/-- Task.from_row: rebuild a Task from a row dict; the dataclass
constructor call runs __post_init__ on the result.  A column holding a
value the Python code cannot convert (TaskStatus on an unknown string,
fromisoformat or json.loads on garbage) raises, modelled by none. -/
def Task.from_row (r : Row) : Option Task :=
  match r.task_id.asText, r.status.asText, r.original_filename.asText,
      r.content_type.asOptText, r.size_bytes.asInt, r.webhook_url.asOptText,
      r.created_at.asOptDtGuarded, r.started_at.asOptDtGuarded,
      r.finished_at.asOptDtGuarded, r.expires_at.asOptDtGuarded,
      r.error_code.asOptText, r.error_message.asOptText,
      r.output_files.asListGuarded, r.webhook_last_status.asOptInt,
      r.webhook_last_attempt_at.asOptDtGuarded, r.webhook_attempt_count.orZeroInt with
  | some tid, some stv, some ofn, some ct, some sz, some wh, some ca, some sa,
      some fa, some ea, some ec, some em, some ofl, some wls, some wla, some wac =>
    match TaskStatus.ofValue stv with
    | some st =>
      some (Task.postInit
        { task_id := tid
          status := st
          original_filename := ofn
          content_type := ct
          size_bytes := sz
          describe_images := r.describe_images.truthy
          webhook_url := wh
          created_at := ca
          started_at := sa
          finished_at := fa
          expires_at := ea
          error_code := ec
          error_message := em
          output_files := ofl
          webhook_last_status := wls
          webhook_last_attempt_at := wla
          webhook_attempt_count := wac })
    | none => none
  | _, _, _, _, _, _, _, _, _, _, _, _, _, _, _, _ => none

theorem asOptText_optText (o : Option String) : (optText o).asOptText = some o := by
  cases o <;> rfl

theorem asOptDtGuarded_optDt (o : Option PyDatetime) :
    (optDt o).asOptDtGuarded = some o := by
  cases o <;> rfl

theorem asOptInt_optInt (o : Option Int) : (optInt o).asOptInt = some o := by
  cases o <;> rfl

theorem ofValue_value (s : TaskStatus) : TaskStatus.ofValue s.value = some s := by
  cases s <;> rfl

theorem truthy_boolInt (b : Bool) :
    Cell.truthy (.int (if b then 1 else 0)) = b := by
  cases b <;> simp [Cell.truthy]

/-- C2 fails on the code: the stored expires_at of every admitted task
is created_at plus a hard-coded 24 hours; the retention_hours setting
(here 48) is never consulted, so expires_at differs from
created_at + retention_hours hours. -/
theorem c2_expires_at_hardcoded_24h :
    (∀ (s : Settings) (tid fn : String) (ct : Option String) (sz : Int)
        (di : Bool) (wh : Option String) (now : PyDatetime),
        (admittedTask s tid fn ct sz di wh now).expires_at
          = some (now + tdHours 24))
      ∧ (admittedTask { retention_hours := 48 } "t" "f.pdf" none 1 false none 0).expires_at
          ≠ some (0 + tdHours 48) := by
  constructor
  · intro s tid fn ct sz di wh now
    simp [admittedTask, Task.postInit]
  · simp [admittedTask, Task.postInit, tdHours]

/-- A task value with created_at set but expires_at still None (such a
value is reachable in Python by constructing with created_at=None and
assigning created_at afterwards, since dataclass fields are mutable). -/
def taskNoExpiry : Task :=
  { task_id := "t"
    status := .queued
    original_filename := "f.pdf"
    content_type := none
    size_bytes := 0
    describe_images := false
    webhook_url := none
    created_at := some 0 }

/-- C10 as stated fails: on a task whose expires_at is None but whose
created_at is set, from_row applies __post_init__ and fills expires_at,
so the round trip is not the identity. -/
theorem c10_roundtrip_counterexample :
    taskNoExpiry.status = TaskStatus.queued
      ∧ (taskNoExpiry.created_at).isSome = true
      ∧ Task.from_row (Task.to_dict taskNoExpiry) ≠ some taskNoExpiry := by
  refine ⟨rfl, rfl, ?_⟩
  decide

/-- C10 amended: for every task whose created_at and expires_at are both
set (every task the Python constructor produces with created_at set has
expires_at set, by __post_init__), serializing with to_dict and
re-parsing with from_row is the identity. -/
theorem c10_roundtrip (t : Task) (h1 : t.created_at ≠ none)
    (h2 : t.expires_at ≠ none) :
    Task.from_row (Task.to_dict t) = some t := by
  obtain ⟨tid, st, ofn, ct, sz, di, wh, ca, sa, fa, ea, ec, em, ofl, wls, wla, wac⟩ := t
  obtain ⟨c, rfl⟩ : ∃ c, ca = some c := by
    cases ca with
    | none => exact absurd rfl h1
    | some c => exact ⟨c, rfl⟩
  obtain ⟨e, rfl⟩ : ∃ e, ea = some e := by
    cases ea with
    | none => exact absurd rfl h2
    | some e => exact ⟨e, rfl⟩
  simp only [Task.to_dict, Task.from_row, Cell.asText,
    ofValue_value, asOptText_optText, Cell.asInt, truthy_boolInt,
    asOptDtGuarded_optDt, Cell.asListGuarded, asOptInt_optInt,
    Cell.orZeroInt]
  simp [Task.postInit]

/-- Witness for C10 amended at a concrete completed task. -/
theorem c10_roundtrip_witness :
    (Task.from_row (Task.to_dict
        { task_id := "t1"
          status := .completed
          original_filename := "doc.pdf"
          content_type := some "application/pdf"
          size_bytes := 12
          describe_images := true
          webhook_url := some "http://h/w"
          created_at := some 100
          started_at := some 150
          finished_at := some 200
          expires_at := some 86400000100
          output_files := ["t1.md", "images/p1-i1.png"]
          webhook_last_status := some 200
          webhook_attempt_count := 1 })
      = some
        { task_id := "t1"
          status := .completed
          original_filename := "doc.pdf"
          content_type := some "application/pdf"
          size_bytes := 12
          describe_images := true
          webhook_url := some "http://h/w"
          created_at := some 100
          started_at := some 150
          finished_at := some 200
          expires_at := some 86400000100
          output_files := ["t1.md", "images/p1-i1.png"]
          webhook_last_status := some 200
          webhook_attempt_count := 1 }) :=
  c10_roundtrip _ (by decide) (by decide)

/-! ## Filename sanitization (src/service/app/routes/tasks.py) -/

/-- Model of os.path.basename on POSIX: everything after the last
slash. -/
def py_basename (s : String) : String :=
  String.mk ((s.data.reverse.takeWhile (fun c => c ≠ '/')).reverse)

/-- ASCII word characters, the ASCII content of the regex class used by
sanitize_filename.  Python character classes are Unicode-aware; the
embedding covers ASCII input, which is the domain of the theorems
below. -/
def isWordChar (c : Char) : Bool := c.isAlpha || c.isDigit || c = '_'

/-- The character class kept by sanitize_filename's substitution:
word characters, whitespace, hyphen and dot. -/
def keepChar (c : Char) : Bool :=
  isWordChar c || isPySpace c || c = '-' || c = '.'

/-- The re.sub call of sanitize_filename: every character outside the
kept class becomes an underscore. -/
def subDangerous (s : String) : String :=
  String.mk (s.data.map (fun c => if keepChar c then c else '_'))

/-- os.path.splitext (POSIX) for names without a slash: the extension
starts at the last dot, unless every character before that dot is a
dot. -/
def pySplitext (s : String) : String × String :=
  match s.data.reverse.findIdx? (fun c => c = '.') with
  | none => (s, "")
  | some r =>
    let d := s.data.length - 1 - r
    if (s.data.take d).any (fun c => c ≠ '.') then
      (String.mk (s.data.take d), String.mk (s.data.drop d))
    else (s, "")

/-- The length-limiting branch of sanitize_filename: when the name
exceeds 255 characters, keep name[:255 - len(ext)] plus the extension
(a Python slice with a possibly negative bound). -/
def sanitize_truncate (f : String) : String :=
  if 255 < f.length then
    pySliceTo (pySplitext f).1 (255 - ((pySplitext f).2.length : Int))
      ++ (pySplitext f).2
  else f

/-- sanitize_filename: basename, substitution, length limit, and the
final fallback to the literal name upload for an empty result. -/
def sanitize_filename (filename : String) : String :=
  let f := subDangerous (py_basename filename)
  let f := sanitize_truncate f
  if f = "" then "upload" else f

theorem subDangerous_chars (s : String) :
    ∀ c ∈ (subDangerous s).data, keepChar c := by
  intro c hc
  simp only [subDangerous, List.mem_map] at hc
  obtain ⟨a, _, rfl⟩ := hc
  by_cases h : keepChar a
  · rw [if_pos h]; exact h
  · rw [if_neg h]; decide

theorem pySplitext_append (s : String) :
    (pySplitext s).1 ++ (pySplitext s).2 = s := by
  unfold pySplitext
  cases h : s.data.reverse.findIdx? (fun c => c = '.') with
  | none =>
    apply String.ext
    simp [String.data_append]
  | some r =>
    simp only
    split
    · apply String.ext
      simp [String.data_append]
    · apply String.ext
      simp [String.data_append]

theorem sanitize_truncate_chars (f : String) :
    ∀ c ∈ (sanitize_truncate f).data, c ∈ f.data := by
  intro c hc
  unfold sanitize_truncate at hc
  split at hc
  · rw [String.data_append] at hc
    rcases List.mem_append.1 hc with h | h
    · unfold pySliceTo at h
      split at h
      · have := List.mem_of_mem_take h
        unfold pySplitext at this
        split at this
        · exact this
        · simp only at this
          split at this
          · exact List.mem_of_mem_take this
          · exact this
      · have := List.mem_of_mem_take h
        unfold pySplitext at this
        split at this
        · exact this
        · simp only at this
          split at this
          · exact List.mem_of_mem_take this
          · exact this
    · unfold pySplitext at h
      split at h
      · simp at h
      · simp only at h
        split at h
        · exact List.mem_of_mem_drop h
        · simp at h
  · exact hc

theorem sanitize_truncate_length (f : String)
    (hExt : (pySplitext f).2.length ≤ 255) :
    (sanitize_truncate f).length ≤ 255 := by
  unfold sanitize_truncate
  split
  · next hlen =>
    have hk : (0 : Int) ≤ 255 - ((pySplitext f).2.length : Int) := by omega
    have hslice : (pySliceTo (pySplitext f).1
        (255 - ((pySplitext f).2.length : Int))).length
          ≤ 255 - (pySplitext f).2.length := by
      unfold pySliceTo
      rw [if_pos hk]
      show (List.take _ _).length ≤ _
      rw [List.length_take]
      have : (255 - ((pySplitext f).2.length : Int)).toNat
          = 255 - (pySplitext f).2.length := by omega
      omega
    show ((pySliceTo _ _) ++ (pySplitext f).2).length ≤ 255
    have := String.length_append (pySliceTo (pySplitext f).1
      (255 - ((pySplitext f).2.length : Int))) (pySplitext f).2
    omega
  · omega

theorem sanitize_truncate_suffix (f : String) :
    ∃ stem, sanitize_truncate f = stem ++ (pySplitext f).2 := by
  unfold sanitize_truncate
  split
  · exact ⟨_, rfl⟩
  · exact ⟨(pySplitext f).1, (pySplitext_append f).symm⟩

/-- C4 fails on the code as stated: a name whose extension (the final
dot-suffix) is itself longer than 255 characters is not truncated to
255 characters, because name[:255 - len(ext)] has a negative bound and
the whole extension is appended back. -/
def longExtName : String := "a." ++ String.mk (List.replicate 300 'b')

section
set_option maxRecDepth 4000

/-- Counterexample to C4: the sanitized form of a 302-character ASCII
name a.bbb...b (300 bs) has 301 characters, exceeding the claimed
255-character bound. -/
theorem c4_sanitize_counterexample :
    (sanitize_filename longExtName).length = 301
      ∧ ¬ (sanitize_filename longExtName).length ≤ 255 := by
  constructor
  · decide
  · decide

end

/-- C4 amended: for ASCII filenames, the sanitized name is the basename
only with every character outside the kept class replaced by an
underscore, contains no path separator, ends with the extension of the
substituted basename, and has at most 255 characters provided that
extension itself has at most 255 characters (an over-long extension is
copied back whole and the bound can be exceeded). -/
theorem sanitize_filename_cases (s : String) :
    (sanitize_filename s = "upload"
        ∧ sanitize_truncate (subDangerous (py_basename s)) = "")
      ∨ sanitize_filename s = sanitize_truncate (subDangerous (py_basename s)) := by
  unfold sanitize_filename
  simp only
  split
  · next hemp => exact Or.inl ⟨rfl, hemp⟩
  · exact Or.inr rfl

theorem c4_sanitize_filename (s : String)
    (_hA : ∀ c ∈ s.data, c.val ≤ 127)
    (hExt : (pySplitext (subDangerous (py_basename s))).2.length ≤ 255) :
    (∀ c ∈ (sanitize_filename s).data, keepChar c)
      ∧ (sanitize_filename s).length ≤ 255
      ∧ '/' ∉ (sanitize_filename s).data
      ∧ '\\' ∉ (sanitize_filename s).data
      ∧ ∃ stem, sanitize_filename s
          = stem ++ (pySplitext (subDangerous (py_basename s))).2 := by
  have hchars : ∀ c ∈ (sanitize_filename s).data, keepChar c := by
    rcases sanitize_filename_cases s with ⟨hup, _⟩ | heq
    · rw [hup]; decide
    · rw [heq]
      intro c hc
      exact subDangerous_chars _ c (sanitize_truncate_chars _ c hc)
  refine ⟨hchars, ?_, ?_, ?_, ?_⟩
  · rcases sanitize_filename_cases s with ⟨hup, _⟩ | heq
    · rw [hup]; decide
    · rw [heq]
      exact sanitize_truncate_length _ hExt
  · intro hmem
    have := hchars _ hmem
    simp [keepChar, isWordChar, isPySpace] at this
  · intro hmem
    have := hchars _ hmem
    simp [keepChar, isWordChar, isPySpace] at this
  · obtain ⟨stem, hstem⟩ := sanitize_truncate_suffix (subDangerous (py_basename s))
    rcases sanitize_filename_cases s with ⟨hup, hemp⟩ | heq
    · have hext0 : (pySplitext (subDangerous (py_basename s))).2 = "" := by
        rw [hemp] at hstem
        have hnil : stem.data ++ (pySplitext (subDangerous (py_basename s))).2.data = [] := by
          have := congrArg String.data hstem
          simpa [String.data_append] using this.symm
        apply String.ext
        simpa using (List.append_eq_nil.1 hnil).2
      refine ⟨"upload", ?_⟩
      rw [hup, hext0]
      apply String.ext
      simp [String.data_append]
    · exact ⟨stem, heq.trans hstem⟩

/-- Witness for C4 amended: a name with a directory part, spaces and
parentheses. -/
theorem c4_sanitize_filename_witness :
    sanitize_filename "dir/my report(v2).pdf" = "my report_v2_.pdf"
      ∧ (sanitize_filename "dir/my report(v2).pdf").length ≤ 255 :=
  ⟨by decide,
   (c4_sanitize_filename "dir/my report(v2).pdf" (by decide) (by decide)).2.1⟩

/-! ## Worker, store writes and cancellation
(src/service/app/workers/task_queue.py, src/service/app/utils/database.py) -/

/-- Python exception kinds raised by the embedded code. -/
inductive PyError
  | attributeError (name : String)
  | valueError (msg : String)
  deriving DecidableEq, Repr

/-- One UPDATE of the tasks table performed through update_task_status:
the new status together with the optional field patch. -/
structure StatusWrite where
  status : TaskStatus
  started_at : Option PyDatetime := none
  finished_at : Option PyDatetime := none
  error_code : Option String := none
  error_message : Option String := none
  output_files : Option (List String) := none
  deriving DecidableEq, Repr

/-- The five legal transitions of the status DAG of the specification. -/
def dagEdge : TaskStatus → TaskStatus → Bool
  | .queued, .running => true
  | .running, .completed => true
  | .running, .failed => true
  | .completed, .expired => true
  | .failed, .expired => true
  | _, _ => false

/-- _process_task (workers/task_queue.py): the sequence of status
writes a worker performs for one dequeued task id.  The store lookup
result is the Option Task argument; the conversion outcome (a
successful output list, or the message of the raised exception) stands
for the convert_document call; now and fin are the two clock reads.
The source checks only that the task exists before writing RUNNING. -/
def process_task (task : Option Task) (conv : Except String (List String))
    (now fin : PyDatetime) : List StatusWrite :=
  match task with
  | none => []
  | some _ =>
    let w1 : StatusWrite := { status := .running, started_at := some now }
    match conv with
    | .ok outs =>
      [w1, { status := .completed, finished_at := some fin,
             output_files := some outs }]
    | .error e =>
      [w1, { status := .failed, finished_at := some fin,
             error_code := some "CONVERSION_ERROR",
             error_message := some (pyTake 500 e) }]

/-- cancel_task (utils/database.py): the status writes the call
performs, or the Python exception it raises.  The UPDATE argument tuple
mentions TaskStatus.CANCELLED.value; CANCELLED is not a member of the
enum, so evaluating the tuple raises AttributeError before any write
reaches the database. -/
def cancel_task (task : Option Task) (now : PyDatetime) :
    Except PyError (List StatusWrite) :=
  match task with
  | none => .ok []
  | some t =>
    if t.status ≠ .queued ∧ t.status ≠ .running then
      .error (.valueError ("Task cannot be cancelled (status: "
        ++ t.status.value ++ ")"))
    else
      match TaskStatus.member "CANCELLED" with
      | none => .error (.attributeError "CANCELLED")
      | some st => .ok [{ status := st, finished_at := some now }]

/-- A concrete completed task (used to refute the skip clause of C3). -/
def completedTask : Task :=
  { task_id := "t"
    status := .completed
    original_filename := "f.pdf"
    content_type := none
    size_bytes := 1
    describe_images := false
    webhook_url := none
    created_at := some 0
    expires_at := some 86400000000
    output_files := ["t.md"] }

/-- Counterexample to C3: a worker that dequeues a task whose current
status is completed does not skip it; it writes RUNNING (and then a
terminal state), re-entering the state machine from a terminal state. -/
theorem c3_status_dag_counterexample :
    completedTask.status ≠ TaskStatus.queued
      ∧ process_task (some completedTask) (Except.ok ["t.md"]) 5 9 ≠ []
      ∧ (process_task (some completedTask) (Except.ok ["t.md"]) 5 9).head?
          = some { status := .running, started_at := some 5 }
      ∧ dagEdge completedTask.status TaskStatus.running = false := by
  refine ⟨by decide, by decide, by decide, by decide⟩

/-- C3 amended: the worker skips a dequeued task only when it is absent
from the store; any present task is transitioned to RUNNING and then to
exactly one of COMPLETED or FAILED, without a check that its current
status is queued.  For a task dequeued while queued these writes follow
the DAG.  cancel_task never writes: its only write would carry the
nonexistent CANCELLED member, whose lookup raises first, so no status
outside the five-value enumeration is ever written. -/
theorem c3_worker_transitions (task : Option Task)
    (conv : Except String (List String)) (now fin : PyDatetime) :
    (task = none → process_task task conv now fin = [])
      ∧ (∀ t, task = some t →
          ∃ w2, process_task task conv now fin
              = [{ status := .running, started_at := some now }, w2]
            ∧ (w2.status = .completed ∨ w2.status = .failed)
            ∧ (t.status = .queued →
                dagEdge t.status .running ∧ dagEdge .running w2.status))
      ∧ (∀ (ot : Option Task) (n : PyDatetime) (ws : List StatusWrite),
          cancel_task ot n = .ok ws → ws = []) := by
  refine ⟨fun h => by rw [h]; rfl, ?_, ?_⟩
  · intro t ht
    subst ht
    cases conv with
    | ok outs =>
      refine ⟨_, rfl, Or.inl rfl, fun hq => ?_⟩
      rw [hq]
      exact ⟨rfl, rfl⟩
    | error e =>
      refine ⟨_, rfl, Or.inr rfl, fun hq => ?_⟩
      rw [hq]
      exact ⟨rfl, rfl⟩
  · intro ot n ws hws
    cases ot with
    | none =>
      simpa [cancel_task] using hws.symm
    | some t =>
      simp only [cancel_task] at hws
      split at hws
      · simp at hws
      · have hm : TaskStatus.member "CANCELLED" = none := rfl
        rw [hm] at hws
        simp at hws

/-- Witness for C3 amended: a queued task converted successfully is
written RUNNING and then a terminal state, along DAG edges. -/
theorem c3_worker_transitions_witness :
    process_task (some { completedTask with status := .queued })
        (Except.ok ["t.md"]) 5 9 ≠ []
      ∧ dagEdge TaskStatus.queued TaskStatus.running = true := by
  obtain ⟨-, h, -⟩ := c3_worker_transitions
    (some { completedTask with status := .queued }) (Except.ok ["t.md"]) 5 9
  obtain ⟨w2, hw, -, hq⟩ := h _ rfl
  refine ⟨?_, (hq rfl).1⟩
  rw [hw]
  simp

/-! ## Conversion pipeline (src/service/app/converters/pipeline.py) -/

/-- Python str.lower() on ASCII data. -/
def pyLower (s : String) : String :=
  String.mk (s.data.map Char.toLower)

/-- Python sorted() on strings: a stable sort by the string order,
implemented as insertion sort. -/
def insertSorted (x : String) : List String → List String
  | [] => [x]
  | y :: ys => if x < y then x :: y :: ys else y :: insertSorted x ys

/-- Model of Python sorted(images_dir.iterdir()) on the names. -/
def pySorted (l : List String) : List String := l.foldr insertSorted []

/-- Dynamic attribute access settings.name followed by the Python
truthiness test of the value, as in the describe branch of
convert_document.  Only the fields declared on the Settings class
resolve; any other name raises AttributeError (pydantic reads
environment variables case-insensitively, but attribute access on the
model object is ordinary Python attribute lookup). -/
def Settings.getattrTruthy (st : Settings) (name : String) : Except PyError Bool :=
  if name = "data_dir" then .ok (st.data_dir != "")
  else if name = "max_upload_size" then .ok (st.max_upload_size != 0)
  else if name = "db_path" then .ok (st.db_path != "")
  else if name = "OPENAI_API_KEY" then .ok (st.OPENAI_API_KEY != "")
  else if name = "max_concurrent_tasks" then .ok (st.max_concurrent_tasks != 0)
  else if name = "max_concurrent_descriptions" then
    .ok (st.max_concurrent_descriptions != 0)
  else if name = "description_max_retries" then
    .ok (st.description_max_retries != 0)
  else if name = "description_retry_delay" then
    .ok (decide (st.description_retry_delay ≠ 0))
  else if name = "webhook_timeout" then .ok (decide (st.webhook_timeout ≠ 0))
  else if name = "webhook_max_retries" then .ok (st.webhook_max_retries != 0)
  else if name = "webhook_retry_delay" then
    .ok (decide (st.webhook_retry_delay ≠ 0))
  else if name = "cleanup_interval_minutes" then
    .ok (st.cleanup_interval_minutes != 0)
  else if name = "retention_hours" then .ok (st.retention_hours != 0)
  else if name = "host" then .ok (st.host != "")
  else if name = "port" then .ok (st.port != 0)
  else .error (.attributeError name)

/-- ImageRef (converters/pdf_extractor.py): an extracted image with
its page and in-page index, stored filename and context windows. -/
structure ImageRef where
  image_id : String
  page : Int
  index : Int
  filename : String
  context_before : String
  context_after : String
  deriving DecidableEq, Repr

/-- convert_document (converters/pipeline.py).  Ports: input_files is
the listing of tasks/id/input; extract is the outcome of the
extract_pdf_with_images call on the pdf (the markdown and image
records, or the message of a raised exception); describeFn stands for
the describe_images rewrite of image_describer.py; images is the
listing of tasks/id/images when that directory exists.  Returns the
output_files list, or the exception that the call raises. -/
def convert_document (st : Settings) (t : Task) (input_files : List String)
    (extract : Except String (String × List ImageRef))
    (describeFn : String → List ImageRef → String)
    (images : Option (List String)) : Except PyError (List String) :=
  match input_files with
  | [] => .error (.valueError "No input file found")
  | input_name :: _ =>
    let ext := pyLower (pySplitext input_name).2
    if ext = ".pdf" then
      match extract with
      | .error m => .error (.valueError m)
      | .ok (md, image_refs) =>
        let step : Except PyError String :=
          if t.describe_images = true ∧ image_refs ≠ [] then
            match st.getattrTruthy "openai_api_token" with
            | .error e => .error e
            | .ok true => .ok (describeFn md image_refs)
            | .ok false => .ok md
          else .ok md
        match step with
        | .error e => .error e
        | .ok _ =>
          .ok ([t.task_id ++ ".md"]
            ++ (match images with
                | none => []
                | some l => (pySorted l).map (fun nm => "images/" ++ nm)))
    else .error (.valueError ("Unsupported file format: " ++ ext))

/-- C1 fails on the code: when image descriptions are requested and the
extraction produced at least one image, convert_document evaluates
settings.openai_api_token, but the Settings class declares the
credential field as OPENAI_API_KEY, so the attribute lookup raises
AttributeError regardless of whether a credential is set; the worker
catches the exception and writes FAILED with CONVERSION_ERROR.  The
claimed skip-with-a-warning branch is unreachable. -/
theorem c1_unconfigured_vision_fails (st : Settings)
    (_hcred : st.OPENAI_API_KEY = "") (t : Task)
    (hdi : t.describe_images = true)
    (input_name : String) (rest : List String)
    (hext : pyLower (pySplitext input_name).2 = ".pdf")
    (md : String) (r : ImageRef) (refs : List ImageRef)
    (describeFn : String → List ImageRef → String)
    (images : Option (List String)) :
    convert_document st t (input_name :: rest)
        (Except.ok (md, r :: refs)) describeFn images
      = Except.error (PyError.attributeError "openai_api_token")
    ∧ ∀ (emsg : String) (now fin : PyDatetime),
        ∃ w2, process_task (some t) (Except.error emsg) now fin
            = [{ status := .running, started_at := some now }, w2]
          ∧ w2.status = TaskStatus.failed
          ∧ w2.error_code = some "CONVERSION_ERROR" := by
  constructor
  · have hattr : st.getattrTruthy "openai_api_token"
        = Except.error (PyError.attributeError "openai_api_token") := rfl
    simp only [convert_document, hext, if_pos, hattr]
    rw [if_pos (by exact ⟨hdi, by simp⟩ :
      t.describe_images = true ∧ r :: refs ≠ [])]
  · intro emsg now fin
    exact ⟨_, rfl, rfl, rfl⟩

/-- A concrete extracted image record. -/
def sampleImageRef : ImageRef :=
  { image_id := "p1-i1"
    page := 1
    index := 1
    filename := "p1-i1.png"
    context_before := ""
    context_after := "" }

/-- Witness for C1 at the default (credential-free) settings and a
task requesting descriptions for one extracted image. -/
theorem c1_unconfigured_vision_fails_witness :
    convert_document {} { completedTask with status := .queued, describe_images := true }
        ["f.pdf"] (Except.ok ("md", [sampleImageRef]))
        (fun m _ => m) (some [])
      = Except.error (PyError.attributeError "openai_api_token") :=
  (c1_unconfigured_vision_fails {} rfl _ rfl "f.pdf" [] (by decide) "md"
    sampleImageRef [] (fun m _ => m) (some [])).1

/-! ## File download and path traversal (src/service/app/routes/tasks.py) -/

/-- The relative segments of a PurePosixPath: split on slashes,
dropping empty and single-dot segments, which Path normalizes away;
a leading slash is reported by pathIsAbs. -/
def pathParts (p : String) : List String :=
  ((charSplitList '/' p.data).map String.mk).filter
    (fun s => !(s == "" || s == "."))

/-- PurePosixPath.is_absolute. -/
def pathIsAbs (p : String) : Bool := p.data.head? = some '/'

/-- str of an absolute path given by its segments. -/
def renderAbs (parts : List String) : String :=
  String.mk ('/' :: charJoin '/' (parts.map String.data))

/-- Python str.startswith. -/
def pyStartsWith (s pre : String) : Bool := pre.data.isPrefixOf s.data

/-- The response of the file-download endpoint: ok200 carries the
resolved absolute path (as segments) of the file served. -/
inductive DownloadResp
  | ok200 (resolved : List String)
  | err (code : Nat)
  deriving DecidableEq, Repr

/-- download_task_file (routes/tasks.py).  The store lookup result is
the Option Task argument; dataDir is the resolved data_dir as segments;
fileX is the filesystem port answering Path.exists on a resolved path.
Resolution is modelled symlink-free: resolving task_dir/rel for a
relative rel without dot-dot segments appends the normalized
segments. -/
def download_task_file (task : Option Task) (dataDir : List String)
    (task_id : String) (path : String)
    (fileX : List String → Bool) : DownloadResp :=
  match task with
  | none => .err 404
  | some t =>
    if t.status = .expired then .err 410
    else if t.status ≠ .completed then .err 400
    else if (pathParts path).contains ".." || pathIsAbs path then .err 400
    else
      let taskDir := dataDir ++ ["tasks", task_id]
      let resolved := taskDir ++ pathParts path
      if !(pyStartsWith (renderAbs resolved) (renderAbs taskDir)) then .err 400
      else if fileX resolved then .ok200 resolved else .err 404

/-- C5: a download request whose path contains a dot-dot segment or is
absolute is rejected and never answered 200; and every 200 response
serves a resolved path under the task directory tasks/id, so no
download escaping the task directory returns file bytes. -/
theorem c5_download_containment (task : Option Task) (dataDir : List String)
    (task_id : String) (path : String) (fileX : List String → Bool) :
    (((pathParts path).contains ".." || pathIsAbs path) = true →
        ∀ r, download_task_file task dataDir task_id path fileX
          ≠ DownloadResp.ok200 r)
      ∧ (∀ r, download_task_file task dataDir task_id path fileX
            = DownloadResp.ok200 r →
          ∃ rest, r = (dataDir ++ ["tasks", task_id]) ++ rest) := by
  constructor
  · intro htrav r
    cases task with
    | none => simp [download_task_file]
    | some t =>
      unfold download_task_file
      simp only
      split_ifs <;> simp_all
  · intro r hr
    cases task with
    | none => simp [download_task_file] at hr
    | some t =>
      unfold download_task_file at hr
      simp only at hr
      split_ifs at hr
      all_goals exact ⟨pathParts path, by simpa using hr.symm⟩

/-- Witness for C5: a traversal request against a completed task is not
answered 200 even when the target file exists. -/
theorem c5_download_containment_witness :
    download_task_file (some completedTask) ["data"] "t" "../../etc/passwd"
        (fun _ => true)
      ≠ DownloadResp.ok200 ["data", "tasks", "t"] :=
  (c5_download_containment (some completedTask) ["data"] "t" "../../etc/passwd"
    (fun _ => true)).1 (by decide) _

/-! ## Admission upload streaming (src/service/app/routes/tasks.py) -/

/-- The outcome of the upload-streaming loop. -/
inductive UploadOutcome
  | rejected413
  | saved (size : Nat)
  deriving DecidableEq, Repr

/-- The streaming while-loop of create_conversion_task: chunks are the
byte counts of the successive non-empty reads; the second component is
the number of bytes present in tasks/id/input afterwards, or none once
the partial file is unlinked.  The cumulative size is checked before
each chunk is written; on overflow the partial file is deleted and 413
raised. -/
def streamGo (maxUpload : Nat) : List Nat → Nat → UploadOutcome × Option Nat
  | [], written => (.saved written, some written)
  | c :: cs, written =>
    if written + c > maxUpload then (.rejected413, none)
    else streamGo maxUpload cs (written + c)

/-- The whole streaming loop from an empty file. -/
def stream_upload (chunks : List Nat) (maxUpload : Nat) :
    UploadOutcome × Option Nat :=
  streamGo maxUpload chunks 0

/-- validate_webhook_url, on the scheme and netloc components of
urllib.parse.urlparse. -/
def validate_webhook_url (scheme netloc : String) : Bool :=
  (scheme == "http" || scheme == "https") && netloc != ""

/-- The webhook rejection test of create_conversion_task:
webhook_url and not validate_webhook_url(webhook_url). -/
def webhookBad : Option (String × String × String) → Bool
  | some (_, scheme, netloc) => !validate_webhook_url scheme netloc
  | none => false

/-- Python x or y for strings: y when x is None or empty. -/
def pyOrStr (o : Option String) (d : String) : String :=
  match o with
  | none => d
  | some s => if s = "" then d else s

/-- create_conversion_task (routes/tasks.py): webhook validation, the
streaming upload, then the task insert.  A webhook argument carries the
raw url with its parsed scheme and netloc.  Returns the created task or
the HTTP error status, paired with the bytes left in tasks/id/input. -/
def create_conversion_task (st : Settings) (task_id : String)
    (filename : Option String) (content_type : Option String)
    (webhook : Option (String × String × String))
    (describe_images : Bool) (chunks : List Nat) (now : PyDatetime) :
    Except Nat Task × Option Nat :=
  if webhookBad webhook then (.error 400, none)
  else
    let safe := sanitize_filename (pyOrStr filename "upload")
    match stream_upload chunks st.max_upload_size with
    | (.rejected413, _) => (.error 413, none)
    | (.saved n, f) =>
      (.ok (admittedTask st task_id safe content_type (n : Int) describe_images
        (webhook.map (fun w => w.1)) now), f)

theorem streamGo_spec (maxUpload : Nat) (chunks : List Nat) (w : Nat)
    (hw : w ≤ maxUpload) :
    (w + chunks.sum > maxUpload →
        streamGo maxUpload chunks w = (.rejected413, none))
      ∧ (∀ n f, streamGo maxUpload chunks w = (.saved n, f) →
          n = w + chunks.sum ∧ n ≤ maxUpload ∧ f = some n) := by
  induction chunks generalizing w with
  | nil =>
    refine ⟨fun h => absurd h (by simpa using hw), ?_⟩
    intro n f h
    simp only [streamGo, Prod.mk.injEq, UploadOutcome.saved.injEq] at h
    obtain ⟨rfl, rfl⟩ := h
    exact ⟨by simp, by simpa using hw, rfl⟩
  | cons c cs ih =>
    by_cases hc : w + c > maxUpload
    · refine ⟨fun _ => by simp [streamGo, hc], ?_⟩
      intro n f h
      simp [streamGo, hc] at h
    · have hle : w + c ≤ maxUpload := by omega
      obtain ⟨ih1, ih2⟩ := ih (w + c) hle
      constructor
      · intro hsum
        simp only [streamGo, if_neg hc]
        exact ih1 (by simp at hsum ⊢; omega)
      · intro n f h
        simp only [streamGo, if_neg hc] at h
        obtain ⟨h1, h2, h3⟩ := ih2 n f h
        refine ⟨by simp [h1]; omega, h2, h3⟩

theorem postInit_size (t : Task) : (Task.postInit t).size_bytes = t.size_bytes := by
  unfold Task.postInit
  split <;> rfl

/-- C6: an upload whose cumulative bytes exceed max_upload_size is
rejected with 413 and the partial input file is deleted, so no file
remains under tasks/id/input; and every admitted task has
size_bytes at most max_upload_size (equal to the total streamed
bytes).  The webhook, when given, is assumed valid, since an invalid
webhook is rejected with 400 before any byte is streamed. -/
theorem c6_upload_size_bound (st : Settings) (tid : String)
    (fn ct : Option String) (wh : Option (String × String × String))
    (di : Bool) (chunks : List Nat) (now : PyDatetime)
    (hwh : ∀ u s n, wh = some (u, s, n) → validate_webhook_url s n = true) :
    (chunks.sum > st.max_upload_size →
        create_conversion_task st tid fn ct wh di chunks now
          = (.error 413, none))
      ∧ (∀ t f, create_conversion_task st tid fn ct wh di chunks now
            = (.ok t, f) →
          t.size_bytes = (chunks.sum : Int)
            ∧ t.size_bytes ≤ (st.max_upload_size : Int)
            ∧ f = some chunks.sum) := by
  have hwhBad : webhookBad wh = false := by
    cases wh with
    | none => rfl
    | some w =>
      obtain ⟨u, s, n⟩ := w
      simp [webhookBad, hwh u s n rfl]
  obtain ⟨hs1, hs2⟩ := streamGo_spec st.max_upload_size chunks 0 (by omega)
  constructor
  · intro hsum
    unfold create_conversion_task
    rw [hwhBad]
    simp only [Bool.false_eq_true, if_false]
    rw [show stream_upload chunks st.max_upload_size = (.rejected413, none) from
      hs1 (by simpa using hsum)]
  · intro t f hres
    unfold create_conversion_task at hres
    rw [hwhBad] at hres
    simp only [Bool.false_eq_true, if_false] at hres
    rcases hstream : stream_upload chunks st.max_upload_size with ⟨outcome, file⟩
    rw [hstream] at hres
    cases outcome with
    | rejected413 => simp at hres
    | saved n =>
      obtain ⟨hn, hnle, hf⟩ := hs2 n file hstream
      simp only [Prod.mk.injEq, Except.ok.injEq] at hres
      obtain ⟨rfl, rfl⟩ := hres
      refine ⟨?_, ?_, ?_⟩
      · show (Task.postInit _).size_bytes = _
        rw [postInit_size]
        simp [hn]
      · show (Task.postInit _).size_bytes ≤ _
        rw [postInit_size]
        simp only
        exact_mod_cast hnle
      · rw [hf, hn]
        simp

/-- Witness for C6: a two-chunk upload that overflows a 4-byte limit is
rejected with the file removed, and a small upload is admitted with its
exact size. -/
theorem c6_upload_size_bound_witness :
    create_conversion_task { max_upload_size := 4 } "t" none none none false
        [3, 5] 0
      = (.error 413, none) :=
  (c6_upload_size_bound { max_upload_size := 4 } "t" none none none false
    [3, 5] 0 (fun u s n h => by cases h)).1 (by decide)

/-! ## Webhook notifier (src/service/app/workers/webhook.py) -/

/-- The observable outcome of one webhook POST attempt: an HTTP
response with its status code, or a transport failure (timeout, request
error or any other exception, all of which set last_status to 0). -/
inductive WebhookAttempt
  | http (status : Nat)
  | transportError
  deriving DecidableEq, Repr

/-- Success of an attempt: HTTP status in the interval from 200 up to
but excluding 300. -/
def webhookSuccess : WebhookAttempt → Bool
  | .http s => 200 ≤ s && s < 300
  | .transportError => false

/-- The last_status value an attempt leaves behind: the HTTP status
code, or 0 for a transport failure. -/
def attemptStatus : WebhookAttempt → Nat
  | .http s => s
  | .transportError => 0

/-- The telemetry written by update_webhook_status. -/
structure WebhookTelemetry where
  status : Nat
  attempts : Nat
  deriving DecidableEq, Repr

/-- The retry loop of send_webhook_notification:
for attempt in range(1, max_retries + 1).  outcomes gives the result of
the POST on each (1-based) attempt number; fuel is the number of
attempts remaining, a the current attempt number, last the last_status
variable.  Returns the telemetry written, the sleeps performed
(retry_delay times the attempt number before each retry, skipped after
the final attempt), and the number of attempts made. -/
def sendWebhookLoop (outcomes : Nat → WebhookAttempt) (maxR : Nat) (delay : ℚ) :
    Nat → Nat → Option Nat → WebhookTelemetry × List ℚ × Nat
  | 0, _, last => ({ status := last.getD 0, attempts := maxR }, [], 0)
  | fuel + 1, a, _ =>
    let o := outcomes a
    if webhookSuccess o then
      ({ status := attemptStatus o, attempts := a }, [], 1)
    else
      let rest := sendWebhookLoop outcomes maxR delay fuel (a + 1)
        (some (attemptStatus o))
      (rest.1, (if a < maxR then [delay * (a : ℚ)] else []) ++ rest.2.1,
        rest.2.2 + 1)

/-- send_webhook_notification, from the first attempt with last_status
None. -/
def send_webhook_notification (outcomes : Nat → WebhookAttempt)
    (maxR : Nat) (delay : ℚ) : WebhookTelemetry × List ℚ × Nat :=
  sendWebhookLoop outcomes maxR delay maxR 1 none

theorem sendWebhookLoop_exhaust (outcomes : Nat → WebhookAttempt)
    (maxR : Nat) (delay : ℚ) :
    ∀ fuel a last, a + fuel = maxR + 1 → 1 ≤ fuel →
      (∀ j, a ≤ j → j ≤ maxR → webhookSuccess (outcomes j) = false) →
      sendWebhookLoop outcomes maxR delay fuel a last
        = ({ status := attemptStatus (outcomes maxR), attempts := maxR },
           (List.range' a (maxR - a)).map (fun j => delay * (j : ℚ)), fuel) := by
  intro fuel
  induction fuel with
  | zero => omega
  | succ fuel ih =>
    intro a last ha _ hfail
    have haR : a ≤ maxR := by omega
    have hf : webhookSuccess (outcomes a) = false := hfail a le_rfl haR
    simp only [sendWebhookLoop, hf, Bool.false_eq_true, if_false]
    cases fuel with
    | zero =>
      have haa : a = maxR := by omega
      subst haa
      simp [sendWebhookLoop, lt_irrefl]
    | succ fuel =>
      have hlt : a < maxR := by omega
      rw [ih (a + 1) (some (attemptStatus (outcomes a))) (by omega) (by omega)
        (fun j hj hjR => hfail j (by omega) hjR)]
      have hr : maxR - a = (maxR - (a + 1)) + 1 := by omega
      rw [hr, List.range'_succ]
      simp [hlt]

theorem sendWebhookLoop_first_success (outcomes : Nat → WebhookAttempt)
    (maxR : Nat) (delay : ℚ) (k : Nat) (hk : webhookSuccess (outcomes k) = true) :
    ∀ fuel a last, a + fuel = maxR + 1 → a ≤ k → k ≤ maxR →
      (∀ j, a ≤ j → j < k → webhookSuccess (outcomes j) = false) →
      sendWebhookLoop outcomes maxR delay fuel a last
        = ({ status := attemptStatus (outcomes k), attempts := k },
           (List.range' a (k - a)).map (fun j => delay * (j : ℚ)), k + 1 - a) := by
  intro fuel
  induction fuel with
  | zero => omega
  | succ fuel ih =>
    intro a last ha hak hkR hfail
    by_cases hae : a = k
    · subst hae
      simp [sendWebhookLoop, hk]
    · have hlt : a < k := lt_of_le_of_ne hak hae
      have hf : webhookSuccess (outcomes a) = false := hfail a le_rfl hlt
      simp only [sendWebhookLoop, hf, Bool.false_eq_true, if_false]
      rw [ih (a + 1) (some (attemptStatus (outcomes a))) (by omega) (by omega) hkR
        (fun j hj hjk => hfail j (by omega) hjk)]
      have hr : k - a = (k - (a + 1)) + 1 := by omega
      rw [hr, List.range'_succ]
      have haR : a < maxR := by omega
      simp [haR]
      omega

theorem sendWebhookLoop_attempts_le (outcomes : Nat → WebhookAttempt)
    (maxR : Nat) (delay : ℚ) :
    ∀ fuel a last,
      (sendWebhookLoop outcomes maxR delay fuel a last).2.2 ≤ fuel := by
  intro fuel
  induction fuel with
  | zero => intro a last; simp [sendWebhookLoop]
  | succ fuel ih =>
    intro a last
    simp only [sendWebhookLoop]
    split
    · simp
    · simpa using ih (a + 1) (some (attemptStatus (outcomes a)))

/-- C7: the notifier makes at most webhook_max_retries attempts; the
first attempt whose HTTP status lies in the success interval records
that status with its attempt number and stops, having slept
retry_delay times j after each failed attempt j before it; and when
every attempt fails, the last observed status (0 for a transport
failure) is persisted with the attempt count webhook_max_retries, after
sleeping retry_delay times j for every non-final attempt j. -/
theorem c7_webhook_retry (outcomes : Nat → WebhookAttempt) (maxR : Nat)
    (delay : ℚ) :
    (send_webhook_notification outcomes maxR delay).2.2 ≤ maxR
      ∧ (∀ k, 1 ≤ k → k ≤ maxR → webhookSuccess (outcomes k) = true →
          (∀ j, 1 ≤ j → j < k → webhookSuccess (outcomes j) = false) →
          send_webhook_notification outcomes maxR delay
            = ({ status := attemptStatus (outcomes k), attempts := k },
               (List.range' 1 (k - 1)).map (fun j => delay * (j : ℚ)), k))
      ∧ (1 ≤ maxR →
          (∀ j, 1 ≤ j → j ≤ maxR → webhookSuccess (outcomes j) = false) →
          send_webhook_notification outcomes maxR delay
            = ({ status := attemptStatus (outcomes maxR), attempts := maxR },
               (List.range' 1 (maxR - 1)).map (fun j => delay * (j : ℚ)), maxR)) := by
  refine ⟨sendWebhookLoop_attempts_le outcomes maxR delay maxR 1 none, ?_, ?_⟩
  · intro k hk1 hkR hk hfail
    have := sendWebhookLoop_first_success outcomes maxR delay k hk maxR 1 none
      (by omega) hk1 hkR hfail
    rw [send_webhook_notification, this]
    simp
  · intro hR hfail
    have := sendWebhookLoop_exhaust outcomes maxR delay maxR 1 none
      (by omega) hR hfail
    rw [send_webhook_notification, this]

/-- Witness for C7: with a 3-attempt budget, a 500 then a timeout then
a 204 response ends on attempt 3 with status 204 recorded, after
sleeps of delay and 2 delay. -/
theorem c7_webhook_retry_witness :
    send_webhook_notification
        (fun j => if j = 1 then .http 500
          else if j = 2 then .transportError else .http 204) 3 5
      = ({ status := 204, attempts := 3 }, [(5 : ℚ), 10], 3) := by
  have h := (c7_webhook_retry
    (fun j => if j = 1 then .http 500
      else if j = 2 then .transportError else .http 204) 3 5).2.1 3
    (by decide) (by decide) (by decide)
    (by decide)
  rw [h]
  norm_num [List.range', attemptStatus]

/-! ## Vision describer retry
(src/service/app/converters/image_describer.py) -/

/-- The outcome of one _get_image_description call, as observed by the
retry loop of _describe_single_image: a description, or one of the five
failure classes it distinguishes. -/
inductive VisionOutcome
  | done (desc : String)
  | rateLimit (msg : String)
  | connError (msg : String)
  | apiError (statusCode : Option Nat) (msg : String)
  | fileMissing (msg : String)
  | other (msg : String)
  deriving DecidableEq, Repr

/-- The non-retry test of the APIError branch:
e.status_code and 400 less-equal e.status_code less 500. -/
def clientError4xx : Option Nat → Bool
  | some c => c != 0 && (400 ≤ c && c < 500)
  | none => false

/-- A failure the loop retries after a sleep; client errors (4xx
non-rate-limit) and missing image files are not retried, and a
success is not a failure. -/
def retryableFailure : VisionOutcome → Bool
  | .done _ => false
  | .rateLimit _ => true
  | .connError _ => true
  | .apiError sc _ => !clientError4xx sc
  | .fileMissing _ => false
  | .other _ => true

/-- The sleep performed after a retried failure at a 0-based attempt
index: base times two to the attempt, doubled again for a rate limit. -/
def retrySleep (base : ℚ) (attempt : Nat) : VisionOutcome → Option ℚ
  | .rateLimit _ => some (base * 2 ^ attempt * 2)
  | .done _ => none
  | .connError _ => some (base * 2 ^ attempt)
  | .apiError sc _ =>
    if clientError4xx sc then none else some (base * 2 ^ attempt)
  | .fileMissing _ => none
  | .other _ => some (base * 2 ^ attempt)

/-- The last_error string each failure branch records: a kind prefix
for the three API failure classes, the bare message for a missing
file, and the message truncated to 100 characters only in the
catch-all branch. -/
def failMsg : VisionOutcome → Option String
  | .done _ => none
  | .rateLimit m => some ("rate limit: " ++ m)
  | .connError m => some ("connection error: " ++ m)
  | .apiError _ m => some ("API error: " ++ m)
  | .fileMissing m => some m
  | .other m => some (pyTake 100 m)

/-- The retry loop of _describe_single_image:
for attempt in range(max_retries), with attempt the 0-based index, fuel
the attempts remaining and last the last_error variable.  Returns the
description or the final last_error, the sleeps performed (a retried
final attempt still sleeps before the loop exits), and the number of
attempts made. -/
def describeLoop (o : Nat → VisionOutcome) (base : ℚ) :
    Nat → Nat → Option String → Except (Option String) String × List ℚ × Nat
  | 0, _, last => (.error last, [], 0)
  | fuel + 1, attempt, _ =>
    match o attempt with
    | .done d => (.ok d, [], 1)
    | .rateLimit m =>
      let w := base * 2 ^ attempt * 2
      let r := describeLoop o base fuel (attempt + 1)
        (some ("rate limit: " ++ m))
      (r.1, w :: r.2.1, r.2.2 + 1)
    | .connError m =>
      let w := base * 2 ^ attempt
      let r := describeLoop o base fuel (attempt + 1)
        (some ("connection error: " ++ m))
      (r.1, w :: r.2.1, r.2.2 + 1)
    | .apiError sc m =>
      let le := some ("API error: " ++ m)
      if clientError4xx sc then (.error le, [], 1)
      else
        let w := base * 2 ^ attempt
        let r := describeLoop o base fuel (attempt + 1) le
        (r.1, w :: r.2.1, r.2.2 + 1)
    | .fileMissing m => (.error (some m), [], 1)
    | .other m =>
      let w := base * 2 ^ attempt
      let r := describeLoop o base fuel (attempt + 1) (some (pyTake 100 m))
      (r.1, w :: r.2.1, r.2.2 + 1)

/-- _describe_single_image for one image: the loop from attempt 0 with
the configured bound and base delay. -/
def describe_single_image (o : Nat → VisionOutcome) (st : Settings) :
    Except (Option String) String × List ℚ × Nat :=
  describeLoop o st.description_retry_delay st.description_max_retries 0 none

theorem describeLoop_inv (o : Nat → VisionOutcome) (base : ℚ) :
    ∀ fuel attempt last,
      (describeLoop o base fuel attempt last).2.2 ≤ fuel
        ∧ (describeLoop o base fuel attempt last).2.1
            = (List.range' attempt
                (describeLoop o base fuel attempt last).2.2).filterMap
                (fun i => retrySleep base i (o i))
        ∧ (∀ i, attempt ≤ i →
            i + 1 < attempt + (describeLoop o base fuel attempt last).2.2 →
            retryableFailure (o i) = true) := by
  intro fuel
  induction fuel with
  | zero =>
    intro attempt last
    refine ⟨le_rfl, rfl, ?_⟩
    intro i h1 h2
    simp only [describeLoop] at h2
    omega
  | succ fuel ih =>
    intro attempt last
    cases ho : o attempt with
    | done d =>
      simp only [describeLoop, ho]
      exact ⟨by omega, by simp [List.range', retrySleep, ho],
        fun i h1 h2 => by omega⟩
    | rateLimit m =>
      simp only [describeLoop, ho]
      obtain ⟨ih1, ih2, ih3⟩ := ih (attempt + 1) (some ("rate limit: " ++ m))
      refine ⟨by simpa using ih1, ?_, ?_⟩
      · rw [List.range'_succ]
        simp only [List.filterMap_cons, retrySleep]
        rw [ho]
        simpa using ih2
      · intro i hi1 hi2
        rcases eq_or_lt_of_le hi1 with rfl | hii
        · simp [retryableFailure, ho]
        · exact ih3 i hii (by omega)
    | connError m =>
      simp only [describeLoop, ho]
      obtain ⟨ih1, ih2, ih3⟩ := ih (attempt + 1) (some ("connection error: " ++ m))
      refine ⟨by simpa using ih1, ?_, ?_⟩
      · rw [List.range'_succ]
        simp only [List.filterMap_cons, retrySleep]
        rw [ho]
        simpa using ih2
      · intro i hi1 hi2
        rcases eq_or_lt_of_le hi1 with rfl | hii
        · simp [retryableFailure, ho]
        · exact ih3 i hii (by omega)
    | apiError sc m =>
      by_cases h4 : clientError4xx sc
      · simp only [describeLoop, ho, h4, if_true]
        refine ⟨by omega, ?_, fun i h1 h2 => by omega⟩
        simp [List.range', retrySleep, ho, h4]
      · simp only [describeLoop, ho, h4, Bool.false_eq_true, if_false]
        obtain ⟨ih1, ih2, ih3⟩ := ih (attempt + 1) (some ("API error: " ++ m))
        refine ⟨by simpa using ih1, ?_, ?_⟩
        · rw [List.range'_succ]
          simp only [List.filterMap_cons, retrySleep]
          rw [ho]
          simp only [retrySleep, h4, Bool.false_eq_true, if_false]
          simpa using ih2
        · intro i hi1 hi2
          rcases eq_or_lt_of_le hi1 with rfl | hii
          · simp [retryableFailure, ho, h4]
          · exact ih3 i hii (by omega)
    | fileMissing m =>
      simp only [describeLoop, ho]
      exact ⟨by omega, by simp [List.range', retrySleep, ho],
        fun i h1 h2 => by omega⟩
    | other m =>
      simp only [describeLoop, ho]
      obtain ⟨ih1, ih2, ih3⟩ := ih (attempt + 1) (some (pyTake 100 m))
      refine ⟨by simpa using ih1, ?_, ?_⟩
      · rw [List.range'_succ]
        simp only [List.filterMap_cons, retrySleep]
        rw [ho]
        simpa using ih2
      · intro i hi1 hi2
        rcases eq_or_lt_of_le hi1 with rfl | hii
        · simp [retryableFailure, ho]
        · exact ih3 i hii (by omega)

theorem describeLoop_exhaust (o : Nat → VisionOutcome) (base : ℚ) :
    ∀ fuel attempt last,
      (∀ i, attempt ≤ i → i < attempt + fuel → retryableFailure (o i) = true) →
      (describeLoop o base fuel attempt last).2.2 = fuel
        ∧ (describeLoop o base fuel attempt last).1
            = .error (if fuel = 0 then last
                else failMsg (o (attempt + fuel - 1))) := by
  intro fuel
  induction fuel with
  | zero => intro attempt last _; exact ⟨rfl, rfl⟩
  | succ fuel ih =>
    intro attempt last hall
    have hra : retryableFailure (o attempt) = true :=
      hall attempt le_rfl (by omega)
    cases ho : o attempt with
    | done d => rw [ho] at hra; simp [retryableFailure] at hra
    | rateLimit m =>
      simp only [describeLoop, ho]
      obtain ⟨ih1, ih2⟩ := ih (attempt + 1) (some ("rate limit: " ++ m))
        (fun i h1 h2 => hall i (by omega) (by omega))
      refine ⟨by simpa using ih1, ?_⟩
      rw [ih2]
      have ha1 : attempt + 1 + fuel - 1 = attempt + fuel := by omega
      have ha2 : attempt + (fuel + 1) - 1 = attempt + fuel := by omega
      rw [ha1, ha2]
      by_cases hf : fuel = 0
      · subst hf
        simp [failMsg, ho]
      · simp [hf]
    | connError m =>
      simp only [describeLoop, ho]
      obtain ⟨ih1, ih2⟩ := ih (attempt + 1) (some ("connection error: " ++ m))
        (fun i h1 h2 => hall i (by omega) (by omega))
      refine ⟨by simpa using ih1, ?_⟩
      rw [ih2]
      have ha1 : attempt + 1 + fuel - 1 = attempt + fuel := by omega
      have ha2 : attempt + (fuel + 1) - 1 = attempt + fuel := by omega
      rw [ha1, ha2]
      by_cases hf : fuel = 0
      · subst hf
        simp [failMsg, ho]
      · simp [hf]
    | apiError sc m =>
      have h4 : clientError4xx sc = false := by
        rw [ho] at hra
        simpa [retryableFailure] using hra
      simp only [describeLoop, ho, h4, Bool.false_eq_true, if_false]
      obtain ⟨ih1, ih2⟩ := ih (attempt + 1) (some ("API error: " ++ m))
        (fun i h1 h2 => hall i (by omega) (by omega))
      refine ⟨by simpa using ih1, ?_⟩
      rw [ih2]
      have ha1 : attempt + 1 + fuel - 1 = attempt + fuel := by omega
      have ha2 : attempt + (fuel + 1) - 1 = attempt + fuel := by omega
      rw [ha1, ha2]
      by_cases hf : fuel = 0
      · subst hf
        simp [failMsg, ho]
      · simp [hf]
    | fileMissing m => rw [ho] at hra; simp [retryableFailure] at hra
    | other m =>
      simp only [describeLoop, ho]
      obtain ⟨ih1, ih2⟩ := ih (attempt + 1) (some (pyTake 100 m))
        (fun i h1 h2 => hall i (by omega) (by omega))
      refine ⟨by simpa using ih1, ?_⟩
      rw [ih2]
      have ha1 : attempt + 1 + fuel - 1 = attempt + fuel := by omega
      have ha2 : attempt + (fuel + 1) - 1 = attempt + fuel := by omega
      rw [ha1, ha2]
      by_cases hf : fuel = 0
      · subst hf
        simp [failMsg, ho]
      · simp [hf]

section
set_option maxRecDepth 4000

/-- A 120-character message, longer than the claimed truncation. -/
def longRateMsg : String := String.mk (List.replicate 120 'x')

/-- Counterexample to C8: with every attempt rate-limited by a
120-character message, the recorded last error is the full prefixed
message of 132 characters; it is not truncated to 100 characters
(the truncation happens only in the catch-all exception branch). -/
theorem c8_describe_counterexample :
    (describe_single_image (fun _ => VisionOutcome.rateLimit longRateMsg) {}).1
        = Except.error (some ("rate limit: " ++ longRateMsg))
      ∧ ("rate limit: " ++ longRateMsg).length = 132
      ∧ ¬ ("rate limit: " ++ longRateMsg).length ≤ 100 := by
  refine ⟨rfl, by decide, by decide⟩

end

/-- C8 amended: the describer makes at most description_max_retries
attempts; every attempt before the last one was a retryable failure (a
client 4xx error, a missing file, or a success stops the loop); the
sleeps are exactly base times 2 to the attempt index for each retried
failure, doubled for a rate limit; and when every attempt is a
retryable failure the image is marked failed with the last error
string, which carries a kind prefix for rate-limit, connection and API
errors and is truncated to 100 characters only in the catch-all
branch. -/
theorem c8_describe_retry (o : Nat → VisionOutcome) (st : Settings) :
    (describe_single_image o st).2.2 ≤ st.description_max_retries
      ∧ (describe_single_image o st).2.1
          = (List.range' 0 (describe_single_image o st).2.2).filterMap
              (fun i => retrySleep st.description_retry_delay i (o i))
      ∧ (∀ i, i + 1 < (describe_single_image o st).2.2 →
          retryableFailure (o i) = true)
      ∧ ((∀ i, i < st.description_max_retries → retryableFailure (o i) = true) →
          (describe_single_image o st).2.2 = st.description_max_retries
            ∧ (describe_single_image o st).1
                = .error (if st.description_max_retries = 0 then none
                    else failMsg (o (st.description_max_retries - 1)))) := by
  obtain ⟨h1, h2, h3⟩ := describeLoop_inv o st.description_retry_delay
    st.description_max_retries 0 none
  unfold describe_single_image
  refine ⟨h1, h2, fun i hi => h3 i (Nat.zero_le i) (by omega), fun hall => ?_⟩
  obtain ⟨h4, h5⟩ := describeLoop_exhaust o st.description_retry_delay
    st.description_max_retries 0 none (fun i hi1 hi2 => hall i (by omega))
  exact ⟨h4, by simpa using h5⟩

/-- Witness for C8 amended: three rate-limited attempts at the default
settings exhaust the budget and record the prefixed message. -/
theorem c8_describe_retry_witness :
    (describe_single_image (fun _ => VisionOutcome.rateLimit "r") {}).1
        = Except.error (some "rate limit: r")
      ∧ (describe_single_image (fun _ => VisionOutcome.rateLimit "r") {}).2.2 = 3 := by
  have h := (c8_describe_retry (fun _ => VisionOutcome.rateLimit "r") {}).2.2.2
    (fun i _ => rfl)
  refine ⟨?_, h.1⟩
  rw [h.2]
  rfl

end MVS
